import Mathlib

/-!
Shallow embedding of `qandaxfmrartifact/QandaTransformersModelArtifact.py`.

The adapter keeps three mutable attributes (`_model`, `_tokenizer_type`,
`_model_type`); its methods dispatch on the runtime shape of the `pack`
source, validate, and read/write sidecar files.  We model:

* Python exceptions as an inductive `PyError` (note that in Python 3,
  `FileNotFoundError` is a subclass of `OSError = EnvironmentError`, which
  matters for the `except EnvironmentError` clause in `_load_from_string`);
* opaque external objects (`transformers` models, tokenizers, embedders) as
  `PyVal`, recording the data the code inspects: `type(x).__module__`,
  `x.__class__.__name__`, truthiness, and an identity;
* the filesystem as `FS`: a list of existing directories plus an
  association list of files keyed by `(directory, filename)` — every file
  access in the source is `os.path.join(path, literal_filename)`;
* the external library calls (`getattr(import_module('transformers'), c)`,
  `from_pretrained`, `AutoTokenizer.from_pretrained`, `hub.load`,
  `save_pretrained`, `tf.saved_model.save`) as an oracle `Env`;
* each method as a function returning its `Except PyError` outcome together
  with the adapter state (and `FS` where the method touches disk) as of the
  moment it returns or raises, so partial mutation is observable.

A central fact of the source module: `json` is used at
`_save_package_opts` (json.dump) and `load` (json.load) but never
imported, so any execution reaching those calls raises
`NameError: name 'json' is not defined`.  Moreover `pack` invokes
`self._save_package_opts(model, opts)` with the *source* (`model`) as the
path argument; when the source is a dict, `os.path.join` raises
`TypeError` before the `NameError` would be reached.
-/

/-- Python exception values the adapter can produce or propagate. -/
inductive PyError where
  | invalidArgument (msg : String)
  | notFound (msg : String)
  | missingDependency (msg : String)
  | typeError (msg : String)
  | nameError (msg : String)
  | fileNotFoundError (msg : String)
  | environmentError (msg : String)
  | attributeError (msg : String)
  | otherError (msg : String)
deriving DecidableEq, Repr

/-- `except EnvironmentError` in Python 3 catches `OSError` and all of its
subclasses, `FileNotFoundError` included. -/
def PyError.isEnvironmentError : PyError → Bool
  | .environmentError _ => true
  | .fileNotFoundError _ => true
  | _ => false

/-- `except AttributeError` catches exactly `AttributeError`. -/
def PyError.isAttributeError : PyError → Bool
  | .attributeError _ => true
  | _ => false

/-- An opaque external Python object: the module that defines its class
(`type(x).__module__`), its class name (`x.__class__.__name__`), an
identity tag, and its truthiness (`bool(x)`). -/
structure PyVal where
  module : String
  className : String
  objId : Nat
  truthy : Bool
deriving DecidableEq, Repr

/-- The runtime shape of a `pack` source: a string, a dict (association
list preserving the keys the code reads), or anything else (e.g. a
number), which `isinstance` rejects on both tests. -/
inductive PySource where
  | str (s : String)
  | dict (entries : List (String × PyVal))
  | other (typeName : String)
deriving DecidableEq, Repr

/-- Python `d.get(k)` on an association-list dict: first binding wins. -/
def dictGet (d : List (String × PyVal)) (k : String) : Option PyVal :=
  (d.find? (fun p => p.1 == k)).map (fun p => p.2)

/-- Truthiness of `d.get(k)`: `None` (absent) is falsy, an object carries
its own truthiness. -/
def truthyOpt : Option PyVal → Bool
  | none => false
  | some v => v.truthy

/-- `opts` mappings are string-to-string dicts (only `embedder_model_path`
is ever read). -/
def containsKey (opts : List (String × String)) (k : String) : Bool :=
  opts.any (fun p => p.1 == k)

/-- Python `opts[k]` lookup (first binding wins). -/
def lookupOpt (opts : List (String × String)) (k : String) : Option String :=
  (opts.find? (fun p => p.1 == k)).map (fun p => p.2)

/-- A single-quote character, used to reproduce the quoting in the Python
error messages. -/
def quoteChar : String := String.mk [Char.ofNat 39]

/-- Wrap a string in single quotes, as Python reprs and the module's
messages do. -/
def q (s : String) : String := quoteChar ++ s ++ quoteChar

/-- `repr` of `type(x)` for an object `x`: `<class 'module.ClassName'>`. -/
def typeRepr (v : PyVal) : String :=
  "<class " ++ q (v.module ++ "." ++ v.className) ++ ">"

/-- `str(type(d.get(k)).__module__)`; for `None` the module is `builtins`
(unreachable behind the truthiness guards). -/
def moduleOf : Option PyVal → String
  | none => "builtins"
  | some v => v.module

/-- `repr(type(d.get(k)))`; `None` gives `<class 'NoneType'>`. -/
def typeReprOf : Option PyVal → String
  | none => "<class " ++ q "NoneType" ++ ">"
  | some v => typeRepr v

/-- `x.__class__.__name__`, with `None.__class__.__name__ = 'NoneType'`. -/
def classNameOf : Option PyVal → String
  | none => "NoneType"
  | some v => v.className

/-- Render `self._model_type` the way `str.format` would (`None` prints as
`None`). -/
def formatOptStr : Option String → String
  | none => "None"
  | some s => s

/-- Auxiliary for `pyStartsWith`: does the first character list begin
with the second? -/
def charsStartWith : List Char → List Char → Bool
  | _, [] => true
  | [], _ :: _ => false
  | c :: cs, d :: ds => c == d && charsStartWith cs ds

/-- Python `s.startswith(pre)`, computed structurally on the character
lists so that concrete instances evaluate. -/
def pyStartsWith (s pre : String) : Bool := charsStartWith s.data pre.data

/-- The adapter's mutable attributes (`__init__` lines 81-90). -/
structure ArtifactState where
  name : String
  model : Option (List (String × PyVal))
  tokenizer_type : Option String
  model_type : Option String
deriving DecidableEq, Repr

/-- `__init__(name)`: `_model = None`, `_tokenizer_type = None`,
`_model_type = 'AutoModelForQuestionAnswering'` (the transformers import
is assumed present, else construction raises MissingDependencyException
and no adapter exists). -/
def initArtifact (name : String) : ArtifactState :=
  { name := name
    model := none
    tokenizer_type := none
    model_type := some "AutoModelForQuestionAnswering" }

/-- The filesystem: existing directories, and files keyed by
`(directory, filename)` with their text contents. -/
structure FS where
  dirs : List String
  files : List ((String × String) × String)
deriving DecidableEq, Repr

/-- `os.path.isdir`. -/
def FS.isdir (fs : FS) (p : String) : Bool := fs.dirs.contains p

/-- `open(os.path.join(dir, fname), 'r')` followed by `f.read()`:
`none` means the open raises `FileNotFoundError`. -/
def FS.readFile (fs : FS) (dir fname : String) : Option String :=
  (fs.files.find? (fun p => p.1 == (dir, fname))).map (fun p => p.2)

/-- `open(os.path.join(dir, fname), 'w')` followed by a full write:
fails with `FileNotFoundError` when the directory does not exist. -/
def FS.writeFile (fs : FS) (dir fname content : String) : Except PyError FS :=
  if fs.isdir dir then
    .ok { fs with files := ((dir, fname), content) :: fs.files }
  else
    .error (.fileNotFoundError
      ("[Errno 2] No such file or directory: " ++ q (dir ++ "/" ++ fname)))

/-- `os.makedirs(path, exist_ok=True)`. -/
def FS.makedirs (fs : FS) (p : String) : FS := { fs with dirs := p :: fs.dirs }

/-- Oracle for the external library calls the adapter delegates to.
`hasAttr c` is whether `getattr(import_module('transformers'), c)`
succeeds; `fromPretrained c src` is `getattr(transformers, c)
.from_pretrained(src)`; `autoTok src` is
`transformers.AutoTokenizer.from_pretrained(src)`; `hubLoad p` is
`hub.load(p)`; the three save oracles give the exception raised by
`save_pretrained` / `tf.saved_model.save`, or `none` on success. -/
structure Env where
  hasAttr : String → Bool
  fromPretrained : String → String → Except PyError PyVal
  autoTok : String → Except PyError PyVal
  hubLoad : String → Except PyError PyVal
  saveModel : PyVal → String → Option PyError
  saveTok : PyVal → String → Option PyError
  saveEmbedder : PyVal → String → Option PyError

/-- `getattr(import_module('transformers'), name)` raising
`AttributeError` when the attribute is missing. -/
def noAttrMsg (a : String) : String :=
  "module " ++ q "transformers" ++ " has no attribute " ++ q a

/-- Message of the `NotFound` raised when `self._model_type is None`
(`_load_from_directory` lines 96-101). -/
def modelTypeNotFoundMsg : String :=
  "Type of transformers model not found. This should be present in a file called "
    ++ q "_model_type.txt" ++ " in the artifacts of the bundle."

/-- Message of the `NotFound` raised when `self._tokenizer_type is None`
(`_load_from_directory` lines 103-108). -/
def tokenizerTypeNotFoundMsg : String :=
  "Type of transformers tokenizer not found. This should be present in a file called "
    ++ q "tokenizer_type.txt" ++ " in the artifacts of the bundle."

/-- Message of the `NotFound` raised when `'embedder_model_path' not in
opts` (lines 110-113 and 164-167; note the trailing space in the
source). -/
def embedderOptsNotFoundMsg : String :=
  "Path to embedder model should be in opts. "

/-- `InvalidArgument` message naming a dict key missing from the `pack`
source (`_load_from_dict` lines 128-144). -/
def keyNotFoundMsg (k : String) : String :=
  q k ++ " key is not found in the dictionary. Expecting a dictionary with keys "
    ++ q "model" ++ ", " ++ q "tokenizer" ++ " and " ++ q "embedder"

/-- `InvalidArgument` message for a non-transformers model object
(lines 150-154). -/
def expectingModelMsg (tr : String) : String :=
  "Expecting a transformers model object but got " ++ tr

/-- `InvalidArgument` message for a non-transformers tokenizer object
(lines 155-159). -/
def expectingTokenizerMsg (tr : String) : String :=
  "Expecting a transformers tokenizer object but got " ++ tr

/-- `InvalidArgument` message of `pack` for a source that is neither a
string nor a dict (lines 206-210). -/
def packFormatMsg : String :=
  "Expecting a Dictionary of format \x7b" ++ q "model"
    ++ ": <transformers model object>, " ++ q "tokenizer"
    ++ ": <tokenizer object>\x7d"

/-- `TypeError` raised by `os.path.join` on a non-path first argument. -/
def joinTypeErrorMsg (typeName : String) : String :=
  "join() argument must be str, bytes, or os.PathLike object, not " ++ q typeName

/-- The `NameError` raised because the module never imports `json`. -/
def jsonNameErrorMsg : String :=
  "name " ++ q "json" ++ " is not defined"

/-- `NotFound` message of the `except EnvironmentError` handler in
`_load_from_string` (lines 180-184). -/
def notPresentMsg (modelName : String) : String :=
  "model with name " ++ modelName ++ " not present in the transformers library"

/-- `NotFound` message of the `except AttributeError` handler in
`_load_from_string` (lines 185-189). -/
def noSuchTypeMsg (mt : Option String) : String :=
  "transformers has no model type called " ++ formatOptStr mt

/-- `_file_path(base)` = `os.path.join(base_path, self.name)`. -/
def filePath (st : ArtifactState) (base : String) : String :=
  base ++ "/" ++ st.name

/-- Body of `_load_from_directory` after the `self._model_type is None`
check passed with value `mt` (source lines 103-125): tokenizer-type check,
embedder-option check, the two `getattr(...).from_pretrained(path)` loads,
`hub.load`, and finally the assignment to `self._model`. -/
def _directory_body (env : Env) (st : ArtifactState) (mt : String)
    (path : String) (opts : List (String × String)) :
    Except PyError Unit × ArtifactState :=
  match st.tokenizer_type with
  | none => (.error (.notFound tokenizerTypeNotFoundMsg), st)
  | some tt =>
    if containsKey opts "embedder_model_path" then
      if env.hasAttr mt then
        match env.fromPretrained mt path with
        | .error e => (.error e, st)
        | .ok m =>
          if env.hasAttr tt then
            match env.fromPretrained tt path with
            | .error e => (.error e, st)
            | .ok tok =>
              match lookupOpt opts "embedder_model_path" with
              | none => (.error (.otherError ("KeyError: " ++ q "embedder_model_path")), st)
              | some p =>
                match env.hubLoad p with
                | .error e => (.error e, st)
                | .ok emb =>
                  (.ok (), { st with
                    model := some [("model", m), ("tokenizer", tok), ("embedder", emb)] })
          else (.error (.attributeError (noAttrMsg tt)), st)
      else (.error (.attributeError (noAttrMsg mt)), st)
    else (.error (.notFound embedderOptsNotFoundMsg), st)

/-- `_load_from_directory(path, opts)` (source lines 95-125). -/
def _load_from_directory (env : Env) (st : ArtifactState) (path : String)
    (opts : List (String × String)) : Except PyError Unit × ArtifactState :=
  match st.model_type with
  | none => (.error (.notFound modelTypeNotFoundMsg), st)
  | some mt => _directory_body env st mt path opts

/-- `_load_from_dict(model)` (source lines 127-161): the three
truthiness checks in order, the two provenance checks on
`type(...).__module__`, then `self._model = model`. -/
def _load_from_dict (st : ArtifactState) (d : List (String × PyVal)) :
    Except PyError Unit × ArtifactState :=
  if !truthyOpt (dictGet d "model") then
    (.error (.invalidArgument (keyNotFoundMsg "model")), st)
  else if !truthyOpt (dictGet d "tokenizer") then
    (.error (.invalidArgument (keyNotFoundMsg "tokenizer")), st)
  else if !truthyOpt (dictGet d "embedder") then
    (.error (.invalidArgument (keyNotFoundMsg "embedder")), st)
  else if !pyStartsWith (moduleOf (dictGet d "model")) "transformers" then
    (.error (.invalidArgument (expectingModelMsg (typeReprOf (dictGet d "model")))), st)
  else if !pyStartsWith (moduleOf (dictGet d "tokenizer")) "transformers" then
    (.error (.invalidArgument (expectingTokenizerMsg (typeReprOf (dictGet d "tokenizer")))), st)
  else
    (.ok (), { st with model := some d })

/-- The `try` block of `_load_from_string` (source lines 169-178):
`getattr(import_module('transformers'), self._model_type)
.from_pretrained(model_name)`, then
`transformers.AutoTokenizer.from_pretrained(model_name)`, then
`hub.load(opts['embedder_model_path'])`, then the assignment.  When
`self._model_type` is `None`, `getattr` raises a `TypeError`, which the
handlers below do not catch. -/
def _string_try_body (env : Env) (st : ArtifactState) (model_name : String)
    (opts : List (String × String)) : Except PyError ArtifactState :=
  match st.model_type with
  | none => .error (.typeError "attribute name must be string")
  | some mt =>
    if env.hasAttr mt then
      match env.fromPretrained mt model_name with
      | .error e => .error e
      | .ok m =>
        match env.autoTok model_name with
        | .error e => .error e
        | .ok tok =>
          match lookupOpt opts "embedder_model_path" with
          | none => .error (.otherError ("KeyError: " ++ q "embedder_model_path"))
          | some p =>
            match env.hubLoad p with
            | .error e => .error e
            | .ok emb =>
              .ok { st with
                model := some [("model", m), ("tokenizer", tok), ("embedder", emb)] }
    else .error (.attributeError (noAttrMsg mt))

/-- `_load_from_string(model_name, opts)` (source lines 163-189): the
embedder-option check, then the `try` block, with `except
EnvironmentError` and `except AttributeError` translated to `NotFound`
and every other exception propagated. -/
def _load_from_string (env : Env) (st : ArtifactState) (model_name : String)
    (opts : List (String × String)) : Except PyError Unit × ArtifactState :=
  if containsKey opts "embedder_model_path" then
    match _string_try_body env st model_name opts with
    | .ok st' => (.ok (), st')
    | .error e =>
      if e.isEnvironmentError then
        (.error (.notFound (notPresentMsg model_name)), st)
      else if e.isAttributeError then
        (.error (.notFound (noSuchTypeMsg st.model_type)), st)
      else
        (.error e, st)
  else
    (.error (.notFound embedderOptsNotFoundMsg), st)

/-- `_save_package_opts(path, opts)` (source lines 191-193).  `pack`
passes the *source* as `path`.  `os.path.join` raises `TypeError` on a
non-path argument; otherwise `open(..., 'w')` creates/truncates the file
(empty, since nothing has been written when the next statement fails) and
`json.dump(opts, f)` raises `NameError` because `json` was never
imported. -/
def _save_package_opts (fs : FS) (path : PySource)
    (_opts : List (String × String)) : Except PyError Unit × FS :=
  match path with
  | .str s =>
    match fs.writeFile s "package_opts.json" "" with
    | .ok fs' => (.error (.nameError jsonNameErrorMsg), fs')
    | .error e => (.error e, fs)
  | .dict _ => (.error (.typeError (joinTypeErrorMsg "dict")), fs)
  | .other tn => (.error (.typeError (joinTypeErrorMsg tn)), fs)

/-- The dispatch of `pack` on the runtime type of its source (source
lines 199-210): `isinstance(model, str)` refined by `os.path.isdir`,
`isinstance(model, dict)`, otherwise `InvalidArgument`. -/
def packDispatch (env : Env) (st : ArtifactState) (fs : FS) (source : PySource)
    (opts : List (String × String)) : Except PyError Unit × ArtifactState :=
  match source with
  | .str s =>
    if fs.isdir s then _load_from_directory env st s opts
    else _load_from_string env st s opts
  | .dict d => _load_from_dict st d
  | .other _ => (.error (.invalidArgument packFormatMsg), st)

/-- `pack(model, opts=None)` (source lines 195-213): default the options,
dispatch on the runtime type of the source, then call
`self._save_package_opts(model, opts)` — with the source as the path —
and `return self` (modelled as `.ok ()`, the state being the adapter). -/
def pack (env : Env) (st : ArtifactState) (fs : FS) (source : PySource)
    (optsArg : Option (List (String × String))) :
    Except PyError Unit × ArtifactState × FS :=
  let opts := optsArg.getD []
  match packDispatch env st fs source opts with
  | (.error e, st') => (.error e, st', fs)
  | (.ok _, st') =>
    match _save_package_opts fs source opts with
    | (.error e, fs') => (.error e, st', fs')
    | (.ok _, fs') => (.ok (), st', fs')

/-- `load(path)` (source lines 215-227): joins the artifact name, opens
`package_opts.json` (raising `FileNotFoundError` when absent), then calls
`json.load(f)`, which raises `NameError` because `json` was never
imported.  The subsequent sidecar reads, attribute assignments, and the
`self.pack(path, opts)` call (lines 221-227) are unreachable. -/
def load (st : ArtifactState) (fs : FS) (base : String) :
    Except PyError Unit × ArtifactState × FS :=
  let path := filePath st base
  match fs.readFile path "package_opts.json" with
  | none =>
    (.error (.fileNotFoundError
      ("[Errno 2] No such file or directory: " ++ q (path ++ "/package_opts.json"))), st, fs)
  | some _ => (.error (.nameError jsonNameErrorMsg), st, fs)

/-- The effectful tail of `save(dst)` together with `_save_model_type`
(source lines 229-234 and 241-245): the three native saves against the
artifact directory, then the two sidecar writes (whose contents are the
just-derived class names, `None` giving `'NoneType'`), returning the
path.  A missing bundle entry fails at its `save_pretrained` /
`tf.saved_model.save` call. -/
def saveNative (env : Env) (b : List (String × PyVal)) (path : String)
    (fs1 : FS) : Except PyError String × FS :=
  match dictGet b "model" with
  | none =>
    (.error (.attributeError (q "NoneType" ++ " object has no attribute "
      ++ q "save_pretrained")), fs1)
  | some m =>
    match env.saveModel m path with
    | some e => (.error e, fs1)
    | none =>
      match dictGet b "tokenizer" with
      | none =>
        (.error (.attributeError (q "NoneType" ++ " object has no attribute "
          ++ q "save_pretrained")), fs1)
      | some t =>
        match env.saveTok t path with
        | some e => (.error e, fs1)
        | none =>
          match dictGet b "embedder" with
          | none =>
            (.error (.otherError "ValueError: Expected a Trackable object for export, got None."),
              fs1)
          | some emb =>
            match env.saveEmbedder emb path with
            | some e => (.error e, fs1)
            | none =>
              match fs1.writeFile path "_model_type.txt" (classNameOf (dictGet b "model")) with
              | .error e => (.error e, fs1)
              | .ok fs2 =>
                match fs2.writeFile path "tokenizer_type.txt" (classNameOf (dictGet b "tokenizer")) with
                | .error e => (.error e, fs2)
                | .ok fs3 => (.ok path, fs3)

/-- `save(dst)` proper: make the directory, derive the two type names
from the in-memory objects (overwriting values set at load time), then
run `saveNative`. -/
def save (env : Env) (st : ArtifactState) (fs : FS) (dst : String) :
    Except PyError String × ArtifactState × FS :=
  let path := filePath st dst
  let fs1 := fs.makedirs path
  match st.model with
  | none =>
    (.error (.attributeError (q "NoneType" ++ " object has no attribute " ++ q "get")),
      st, fs1)
  | some b =>
    let st2 : ArtifactState :=
      { st with model_type := some (classNameOf (dictGet b "model"))
                tokenizer_type := some (classNameOf (dictGet b "tokenizer")) }
    match saveNative env b path fs1 with
    | (.error e, fs') => (.error e, st2, fs')
    | (.ok p, fs') => (.ok p, st2, fs')

/-- `get()` (source lines 247-248). -/
def get (st : ArtifactState) : Option (List (String × PyVal)) := st.model

/-! ## Concrete fixtures -/

/-- A transformers model object, as `_load_from_dict` sees it. -/
def bertModel : PyVal :=
  { module := "transformers.modeling_bert", className := "BertForQuestionAnswering",
    objId := 1, truthy := true }

/-- A transformers tokenizer object. -/
def bertTokenizer : PyVal :=
  { module := "transformers.tokenization_bert", className := "BertTokenizer",
    objId := 2, truthy := true }

/-- A hub embedder object (its module is never validated). -/
def useEmbedder : PyVal :=
  { module := "tensorflow_hub.module_v2", className := "AutoTrackable",
    objId := 3, truthy := true }

/-- The well-formed dictionary source of the spec's example. -/
def validDict : List (String × PyVal) :=
  [("model", bertModel), ("tokenizer", bertTokenizer), ("embedder", useEmbedder)]

/-- A distinct bundle, standing for a previously packed state. -/
def previousBundle : List (String × PyVal) :=
  [("model", { bertModel with objId := 101 }),
   ("tokenizer", { bertTokenizer with objId := 102 }),
   ("embedder", { useEmbedder with objId := 103 })]

/-- An environment in which every external library call succeeds. -/
def envOk : Env :=
  { hasAttr := fun _ => true
    fromPretrained := fun c _ =>
      .ok { module := "transformers.auto", className := c, objId := 10, truthy := true }
    autoTok := fun _ => .ok bertTokenizer
    hubLoad := fun _ => .ok useEmbedder
    saveModel := fun _ _ => none
    saveTok := fun _ _ => none
    saveEmbedder := fun _ _ => none }

/-- A filesystem with a writable `/tmp` and no files. -/
def fs0 : FS := { dirs := ["/tmp"], files := [] }

/-- An adapter state whose bundle is populated, as after a successful
`_load_from_dict`. -/
def populatedState : ArtifactState :=
  { name := "qanda", model := some validDict, tokenizer_type := none,
    model_type := some "AutoModelForQuestionAnswering" }

/-! ## Claims -/

/-- C3: for every source value that is neither a string nor a mapping,
`pack` fails with `InvalidArgument` and the whole adapter state — the
bundle included — is exactly as before the call. -/
theorem c3_pack_other_type_invalid_argument (env : Env) (st : ArtifactState)
    (fs : FS) (tn : String) (optsArg : Option (List (String × String))) :
    pack env st fs (PySource.other tn) optsArg
      = (Except.error (PyError.invalidArgument packFormatMsg), st, fs) := by
  rfl

/-- C5: a dictionary source with any of the keys `model`, `tokenizer`,
`embedder` absent or not truthy makes `pack` fail with an
`InvalidArgument` whose message names a key that is indeed missing (the
first such key in the order the code checks), leaving state untouched. -/
theorem c5_pack_dict_missing_key (env : Env) (st : ArtifactState) (fs : FS)
    (d : List (String × PyVal)) (optsArg : Option (List (String × String)))
    (h : truthyOpt (dictGet d "model") = false
      ∨ truthyOpt (dictGet d "tokenizer") = false
      ∨ truthyOpt (dictGet d "embedder") = false) :
    ∃ k, k ∈ ["model", "tokenizer", "embedder"]
      ∧ truthyOpt (dictGet d k) = false
      ∧ pack env st fs (PySource.dict d) optsArg
          = (Except.error (PyError.invalidArgument (keyNotFoundMsg k)), st, fs) := by
  by_cases hm : truthyOpt (dictGet d "model") = false
  · exact ⟨"model", by simp, hm, by simp [pack, packDispatch, _load_from_dict, hm]⟩
  · simp only [Bool.not_eq_false] at hm
    by_cases ht : truthyOpt (dictGet d "tokenizer") = false
    · exact ⟨"tokenizer", by simp, ht, by simp [pack, packDispatch, _load_from_dict, hm, ht]⟩
    · simp only [Bool.not_eq_false] at ht
      have he : truthyOpt (dictGet d "embedder") = false := by
        rcases h with h | h | h
        · rw [h] at hm; exact absurd hm (by simp)
        · rw [h] at ht; exact absurd ht (by simp)
        · exact h
      exact ⟨"embedder", by simp, he, by simp [pack, packDispatch, _load_from_dict, hm, ht, he]⟩

/-- Witness for C5 at the empty dictionary. -/
theorem c5_pack_dict_missing_key_witness :
    ∃ k, k ∈ ["model", "tokenizer", "embedder"]
      ∧ truthyOpt (dictGet ([] : List (String × PyVal)) k) = false
      ∧ pack envOk (initArtifact "qanda") fs0 (PySource.dict []) none
          = (Except.error (PyError.invalidArgument (keyNotFoundMsg k)),
             initArtifact "qanda", fs0) :=
  c5_pack_dict_missing_key envOk (initArtifact "qanda") fs0 [] none (Or.inl rfl)

/-- C1: contrary to the claim, `pack` on a well-formed dictionary source
does not succeed: after `_load_from_dict` assigns the bundle, `pack`
calls `_save_package_opts(model, opts)` with the dict itself as the path,
and `os.path.join` raises `TypeError` (were the path a string, the
unimported `json` would raise `NameError`).  No options are persisted and
the adapter is not returned. -/
theorem c1_pack_valid_dict_raises_type_error :
    pack envOk (initArtifact "qanda") fs0 (PySource.dict validDict) (some [])
      = (Except.error (PyError.typeError (joinTypeErrorMsg "dict")),
         { initArtifact "qanda" with model := some validDict }, fs0) := by
  rfl

/-- C4: contrary to the claim, a failing `pack` can mutate a
previously-set bundle: on a valid dictionary source the bundle is
overwritten and only then does `_save_package_opts` raise. -/
theorem c4_failed_pack_overwrites_previous_bundle :
    (pack envOk { initArtifact "qanda" with model := some previousBundle } fs0
        (PySource.dict validDict) none).1
      = Except.error (PyError.typeError (joinTypeErrorMsg "dict"))
    ∧ (pack envOk { initArtifact "qanda" with model := some previousBundle } fs0
        (PySource.dict validDict) none).2.1.model = some validDict
    ∧ some validDict ≠ some previousBundle := by
  refine ⟨rfl, rfl, by decide⟩

/-- C2: contrary to the claim, `save` followed by `load` on the same path
fails: `save` never writes `package_opts.json`, so `load` raises
`FileNotFoundError` opening it; and even when that file exists, the
unimported `json` makes `json.load` raise `NameError`.  `load` never
reaches `pack`, so no bundle is reconstructed. -/
theorem c2_save_then_load_fails :
    (save envOk populatedState fs0 "/tmp").1 = Except.ok "/tmp/qanda"
    ∧ (load (save envOk populatedState fs0 "/tmp").2.1
        (save envOk populatedState fs0 "/tmp").2.2 "/tmp").1
      = Except.error (PyError.fileNotFoundError
          ("[Errno 2] No such file or directory: " ++ q "/tmp/qanda/package_opts.json"))
    ∧ (load populatedState
        { fs0 with files := [(("/tmp/qanda", "package_opts.json"), "\x7b\x7d")] } "/tmp").1
      = Except.error (PyError.nameError jsonNameErrorMsg) := by
  exact ⟨rfl, rfl, rfl⟩

/-- An object from outside the transformers library. -/
def numpyObj : PyVal :=
  { module := "numpy", className := "ndarray", objId := 7, truthy := true }

/-- A dictionary source whose `model` value is not a transformers
object. -/
def badModelDict : List (String × PyVal) :=
  [("model", numpyObj), ("tokenizer", bertTokenizer), ("embedder", useEmbedder)]

/-- C6: with all three keys truthy, a `model` or `tokenizer` value whose
defining module is not under `transformers` makes `pack` fail with
`InvalidArgument` describing the received type (state untouched); when
both pass, the bundle is assigned whatever the `embedder` object's module
is — its type is never checked (the failure that then occurs is the
`TypeError` of `_save_package_opts`, not a validation of `embedder`). -/
theorem c6_pack_dict_provenance (env : Env) (st : ArtifactState) (fs : FS)
    (d : List (String × PyVal)) (optsArg : Option (List (String × String)))
    (m t e : PyVal)
    (hm : dictGet d "model" = some m) (hmt : m.truthy = true)
    (ht : dictGet d "tokenizer" = some t) (htt : t.truthy = true)
    (he : dictGet d "embedder" = some e) (het : e.truthy = true) :
    (pyStartsWith m.module "transformers" = false →
      pack env st fs (PySource.dict d) optsArg
        = (Except.error (PyError.invalidArgument (expectingModelMsg (typeRepr m))), st, fs))
    ∧ (pyStartsWith m.module "transformers" = true →
       pyStartsWith t.module "transformers" = false →
      pack env st fs (PySource.dict d) optsArg
        = (Except.error (PyError.invalidArgument (expectingTokenizerMsg (typeRepr t))), st, fs))
    ∧ (pyStartsWith m.module "transformers" = true →
       pyStartsWith t.module "transformers" = true →
      pack env st fs (PySource.dict d) optsArg
        = (Except.error (PyError.typeError (joinTypeErrorMsg "dict")),
           { st with model := some d }, fs)) := by
  refine ⟨fun h1 => ?_, fun h1 h2 => ?_, fun h1 h2 => ?_⟩
  · simp [pack, packDispatch, _load_from_dict, _save_package_opts, truthyOpt, moduleOf,
      typeReprOf, hm, ht, he, hmt, htt, het, h1]
  · simp [pack, packDispatch, _load_from_dict, _save_package_opts, truthyOpt, moduleOf,
      typeReprOf, hm, ht, he, hmt, htt, het, h1, h2]
  · simp [pack, packDispatch, _load_from_dict, _save_package_opts, truthyOpt, moduleOf,
      typeReprOf, hm, ht, he, hmt, htt, het, h1, h2]

/-- Witness for C6 at a dictionary holding a numpy model. -/
theorem c6_pack_dict_provenance_witness :
    (pyStartsWith numpyObj.module "transformers" = false →
      pack envOk (initArtifact "qanda") fs0 (PySource.dict badModelDict) none
        = (Except.error (PyError.invalidArgument (expectingModelMsg (typeRepr numpyObj))),
           initArtifact "qanda", fs0))
    ∧ (pyStartsWith numpyObj.module "transformers" = true →
       pyStartsWith bertTokenizer.module "transformers" = false →
      pack envOk (initArtifact "qanda") fs0 (PySource.dict badModelDict) none
        = (Except.error (PyError.invalidArgument (expectingTokenizerMsg (typeRepr bertTokenizer))),
           initArtifact "qanda", fs0))
    ∧ (pyStartsWith numpyObj.module "transformers" = true →
       pyStartsWith bertTokenizer.module "transformers" = true →
      pack envOk (initArtifact "qanda") fs0 (PySource.dict badModelDict) none
        = (Except.error (PyError.typeError (joinTypeErrorMsg "dict")),
           { initArtifact "qanda" with model := some badModelDict }, fs0)) :=
  c6_pack_dict_provenance envOk (initArtifact "qanda") fs0 badModelDict none
    numpyObj bertTokenizer useEmbedder rfl rfl rfl rfl rfl rfl

/-- A filesystem in which `/data/model` is an existing directory. -/
def fsDir : FS := { dirs := ["/data/model"], files := [] }

/-- C7: a string source that is an existing directory with
`embedder_model_path` absent from the options makes `pack` fail with a
`NotFound` (whichever of the three `_load_from_directory` validations
fires first), leaving the state untouched. -/
theorem c7_pack_directory_missing_embedder_opt (env : Env) (st : ArtifactState)
    (fs : FS) (s : String) (opts : List (String × String))
    (hdir : fs.isdir s = true)
    (hemb : containsKey opts "embedder_model_path" = false) :
    ∃ msg, pack env st fs (PySource.str s) (some opts)
      = (Except.error (PyError.notFound msg), st, fs) := by
  cases hmt : st.model_type with
  | none =>
    exact ⟨modelTypeNotFoundMsg,
      by simp [pack, packDispatch, hdir, _load_from_directory, hmt]⟩
  | some mt =>
    cases htt : st.tokenizer_type with
    | none =>
      exact ⟨tokenizerTypeNotFoundMsg,
        by simp [pack, packDispatch, hdir, _load_from_directory, _directory_body, hmt, htt]⟩
    | some tt =>
      exact ⟨embedderOptsNotFoundMsg,
        by simp [pack, packDispatch, hdir, _load_from_directory, _directory_body, hmt, htt, hemb]⟩

/-- Witness for C7 on a fresh adapter and an existing directory. -/
theorem c7_pack_directory_missing_embedder_opt_witness :
    ∃ msg, pack envOk (initArtifact "qanda") fsDir (PySource.str "/data/model") (some [])
      = (Except.error (PyError.notFound msg), initArtifact "qanda", fsDir) :=
  c7_pack_directory_missing_embedder_opt envOk (initArtifact "qanda") fsDir
    "/data/model" [] rfl rfl

/-- C8: on the registry-name path (string source, not a directory,
`embedder_model_path` present), a failure of the `try` block is
translated exactly as the source's handlers do: any `EnvironmentError`
(`OSError`) becomes `NotFound` "not present in the transformers
library", any `AttributeError` becomes `NotFound` "no model type called
...", and every other exception propagates unchanged. -/
theorem c8_registry_error_translation (env : Env) (st : ArtifactState) (fs : FS)
    (s : String) (opts : List (String × String)) (e : PyError)
    (hdir : fs.isdir s = false)
    (hemb : containsKey opts "embedder_model_path" = true)
    (hbody : _string_try_body env st s opts = Except.error e) :
    (e.isEnvironmentError = true →
      pack env st fs (PySource.str s) (some opts)
        = (Except.error (PyError.notFound (notPresentMsg s)), st, fs))
    ∧ (e.isEnvironmentError = false → e.isAttributeError = true →
      pack env st fs (PySource.str s) (some opts)
        = (Except.error (PyError.notFound (noSuchTypeMsg st.model_type)), st, fs))
    ∧ (e.isEnvironmentError = false → e.isAttributeError = false →
      pack env st fs (PySource.str s) (some opts) = (Except.error e, st, fs)) := by
  refine ⟨fun h1 => ?_, fun h1 h2 => ?_, fun h1 h2 => ?_⟩
  · simp [pack, packDispatch, hdir, _load_from_string, hemb, hbody, h1]
  · simp [pack, packDispatch, hdir, _load_from_string, hemb, hbody, h1, h2]
  · simp [pack, packDispatch, hdir, _load_from_string, hemb, hbody, h1, h2]

/-- An environment in which `from_pretrained` raises `EnvironmentError`
(the unknown-registry-name case). -/
def envNoModel : Env :=
  { envOk with fromPretrained := fun _ _ => .error (.environmentError "model not found") }

/-- Witness for C8 with a registry name `from_pretrained` cannot find. -/
theorem c8_registry_error_translation_witness :
    (PyError.isEnvironmentError (.environmentError "model not found") = true →
      pack envNoModel (initArtifact "qanda") fs0 (PySource.str "gpt2")
          (some [("embedder_model_path", "/emb")])
        = (Except.error (PyError.notFound (notPresentMsg "gpt2")),
           initArtifact "qanda", fs0))
    ∧ (PyError.isEnvironmentError (.environmentError "model not found") = false →
       PyError.isAttributeError (.environmentError "model not found") = true →
      pack envNoModel (initArtifact "qanda") fs0 (PySource.str "gpt2")
          (some [("embedder_model_path", "/emb")])
        = (Except.error (PyError.notFound (noSuchTypeMsg (initArtifact "qanda").model_type)),
           initArtifact "qanda", fs0))
    ∧ (PyError.isEnvironmentError (.environmentError "model not found") = false →
       PyError.isAttributeError (.environmentError "model not found") = false →
      pack envNoModel (initArtifact "qanda") fs0 (PySource.str "gpt2")
          (some [("embedder_model_path", "/emb")])
        = (Except.error (.environmentError "model not found"),
           initArtifact "qanda", fs0)) :=
  c8_registry_error_translation envNoModel (initArtifact "qanda") fs0 "gpt2"
    [("embedder_model_path", "/emb")] (.environmentError "model not found")
    rfl rfl rfl

/-- C9: for a populated bundle whose three entries are present and whose
native saves succeed, `save(dst)` returns `dst/<name>`, sets
`model_type`/`tokenizer_type` to the runtime class names of the
in-memory objects (overwriting whatever was set at load time — the prior
values are unconstrained here), and writes `_model_type.txt` under
`dst/<name>` containing exactly the model's `__class__.__name__`. -/
theorem c9_save_derives_types_from_runtime_classes (env : Env)
    (st : ArtifactState) (fs : FS) (dst : String) (b : List (String × PyVal))
    (m t e : PyVal)
    (hb : st.model = some b)
    (hm : dictGet b "model" = some m)
    (ht : dictGet b "tokenizer" = some t)
    (he : dictGet b "embedder" = some e)
    (hsm : env.saveModel m (filePath st dst) = none)
    (hst : env.saveTok t (filePath st dst) = none)
    (hse : env.saveEmbedder e (filePath st dst) = none) :
    (save env st fs dst).1 = Except.ok (filePath st dst)
    ∧ (save env st fs dst).2.1.model_type = some m.className
    ∧ (save env st fs dst).2.1.tokenizer_type = some t.className
    ∧ (save env st fs dst).2.2.readFile (filePath st dst) "_model_type.txt"
        = some m.className := by
  simp [save, saveNative, hb, hm, ht, he, hsm, hst, hse, classNameOf,
    FS.makedirs, FS.writeFile, FS.isdir, FS.readFile]

/-- Witness for C9 on the populated fixture state. -/
theorem c9_save_derives_types_witness :
    (save envOk populatedState fs0 "/tmp").1 = Except.ok (filePath populatedState "/tmp")
    ∧ (save envOk populatedState fs0 "/tmp").2.1.model_type = some bertModel.className
    ∧ (save envOk populatedState fs0 "/tmp").2.1.tokenizer_type = some bertTokenizer.className
    ∧ (save envOk populatedState fs0 "/tmp").2.2.readFile
        (filePath populatedState "/tmp") "_model_type.txt" = some bertModel.className :=
  c9_save_derives_types_from_runtime_classes envOk populatedState fs0 "/tmp"
    validDict bertModel bertTokenizer useEmbedder rfl rfl rfl rfl rfl rfl rfl

/-- `_directory_body` never touches `_model_type`. -/
theorem _directory_body_model_type (env : Env) (st : ArtifactState)
    (mt path : String) (opts : List (String × String)) :
    ((_directory_body env st mt path opts).2).model_type = st.model_type := by
  unfold _directory_body
  repeat' split
  all_goals rfl

/-- `_load_from_directory` never touches `_model_type`. -/
theorem _load_from_directory_model_type (env : Env) (st : ArtifactState)
    (path : String) (opts : List (String × String)) :
    ((_load_from_directory env st path opts).2).model_type = st.model_type := by
  unfold _load_from_directory
  split
  · rfl
  · exact _directory_body_model_type ..

/-- `_load_from_dict` never touches `_model_type`. -/
theorem _load_from_dict_model_type (st : ArtifactState)
    (d : List (String × PyVal)) :
    ((_load_from_dict st d).2).model_type = st.model_type := by
  unfold _load_from_dict
  repeat' split
  all_goals rfl

/-- The `try` block of `_load_from_string` never touches `_model_type`. -/
theorem _string_try_body_model_type (env : Env) (st : ArtifactState)
    (model_name : String) (opts : List (String × String)) (st' : ArtifactState)
    (h : _string_try_body env st model_name opts = Except.ok st') :
    st'.model_type = st.model_type := by
  unfold _string_try_body at h
  repeat' split at h
  all_goals simp_all
  all_goals subst h; rfl

/-- `_load_from_string` never touches `_model_type`. -/
theorem _load_from_string_model_type (env : Env) (st : ArtifactState)
    (model_name : String) (opts : List (String × String)) :
    ((_load_from_string env st model_name opts).2).model_type = st.model_type := by
  unfold _load_from_string
  split
  · split
    · next st' h => exact _string_try_body_model_type env st model_name opts st' h
    · repeat' split
      all_goals rfl
  · rfl

/-- `packDispatch` never touches `_model_type`. -/
theorem packDispatch_model_type (env : Env) (st : ArtifactState) (fs : FS)
    (source : PySource) (opts : List (String × String)) :
    ((packDispatch env st fs source opts).2).model_type = st.model_type := by
  unfold packDispatch
  split
  · split
    · exact _load_from_directory_model_type ..
    · exact _load_from_string_model_type ..
  · exact _load_from_dict_model_type ..
  · rfl

/-- `pack` never touches `_model_type`. -/
theorem pack_model_type (env : Env) (st : ArtifactState) (fs : FS)
    (source : PySource) (optsArg : Option (List (String × String))) :
    ((pack env st fs source optsArg).2.1).model_type = st.model_type := by
  simp only [pack]
  have hd := packDispatch_model_type env st fs source (optsArg.getD [])
  rcases hpd : packDispatch env st fs source (optsArg.getD []) with ⟨r, st'⟩
  rw [hpd] at hd
  cases r with
  | error e => exact hd
  | ok u =>
    rcases hsp : _save_package_opts fs source (optsArg.getD []) with ⟨r2, fs'⟩
    cases r2 <;> exact hd

/-- `load` raises before any assignment: the state is returned as is. -/
theorem load_state_eq (st : ArtifactState) (fs : FS) (base : String) :
    (load st fs base).2.1 = st := by
  simp only [load]
  split <;> rfl

/-- `save` either leaves `_model_type` alone (empty bundle) or sets it to
a class name; it never resets it to `None`. -/
theorem save_model_type_isSome (env : Env) (st : ArtifactState) (fs : FS)
    (dst : String) (h : st.model_type.isSome = true) :
    ((save env st fs dst).2.1).model_type.isSome = true := by
  simp only [save]
  cases hmo : st.model with
  | none => simpa using h
  | some b =>
    rcases hsn : saveNative env b (filePath st dst) (fs.makedirs (filePath st dst))
      with ⟨r, fs'⟩
    cases r <;> simp [hsn]

/-- Adapter states (with their filesystem) reachable from a freshly
constructed adapter through any sequence of `pack`, `load` and `save`
calls; the external environment may differ at each call, and `get` does
not change state. -/
inductive Reachable : ArtifactState → FS → Prop where
  | init (name : String) (fs : FS) : Reachable (initArtifact name) fs
  | packStep (env : Env) (src : PySource)
      (optsArg : Option (List (String × String)))
      {st : ArtifactState} {fs : FS} (h : Reachable st fs) :
      Reachable (pack env st fs src optsArg).2.1 (pack env st fs src optsArg).2.2
  | loadStep (base : String) {st : ArtifactState} {fs : FS}
      (h : Reachable st fs) :
      Reachable (load st fs base).2.1 (load st fs base).2.2
  | saveStep (env : Env) (dst : String) {st : ArtifactState} {fs : FS}
      (h : Reachable st fs) :
      Reachable (save env st fs dst).2.1 (save env st fs dst).2.2

/-- On every reachable state `_model_type` is populated: the constructor
sets the non-null default and no operation resets it. -/
theorem reachable_model_type_isSome {st : ArtifactState} {fs : FS}
    (h : Reachable st fs) : st.model_type.isSome = true := by
  induction h with
  | init name fs => rfl
  | packStep env src optsArg h ih => rw [pack_model_type]; exact ih
  | loadStep base h ih => rw [load_state_eq]; exact ih
  | saveStep env dst h ih => exact save_model_type_isSome _ _ _ _ ih

/-- C10: the `self._model_type is None` branch of `_load_from_directory`
is unreachable: on every reachable adapter state the model type is some
string `mt`, and the method's behaviour coincides with its body from the
tokenizer-type check onwards (`_directory_body`), so only the
tokenizer-type check or the embedder-path check can raise `NotFound`
during that validation. -/
theorem c10_model_type_check_unreachable (st : ArtifactState) (fs : FS)
    (h : Reachable st fs) :
    ∃ mt, st.model_type = some mt
      ∧ ∀ (env : Env) (path : String) (opts : List (String × String)),
          _load_from_directory env st path opts = _directory_body env st mt path opts := by
  have h2 := reachable_model_type_isSome h
  cases hmt : st.model_type with
  | none => rw [hmt] at h2; simp at h2
  | some mt =>
    refine ⟨mt, rfl, fun env path opts => ?_⟩
    unfold _load_from_directory
    rw [hmt]

/-- Witness for C10 at the freshly constructed adapter. -/
theorem c10_model_type_check_unreachable_witness :
    ∃ mt, (initArtifact "qanda").model_type = some mt
      ∧ ∀ (env : Env) (path : String) (opts : List (String × String)),
          _load_from_directory env (initArtifact "qanda") path opts
            = _directory_body env (initArtifact "qanda") mt path opts :=
  c10_model_type_check_unreachable (initArtifact "qanda") fs0
    (Reachable.init "qanda" fs0)
